import Mathlib

/-!
Shallow embedding of `src/app.js` (EntreLinhas metro dashboard) and proofs of
the spec's testable claims about it.

JS strings are modelled as `List Char` (UTF-16 code units for the ASCII data
this app handles); JS numbers carrying wait-time seconds as `ℤ`; JS numbers
carrying percentages/positions as `ℚ` (exact arithmetic; every claim's
computation is exactly representable). JS objects whose key order matters are
modelled as association lists, with `List.lookup` playing property access.
-/

abbrev Str := List Char

/-- JS `toLowerCase`, restricted to ASCII (the only data the app handles). -/
def jsLowerChar (c : Char) : Char :=
  match c with
  | 'A' => 'a' | 'B' => 'b' | 'C' => 'c' | 'D' => 'd' | 'E' => 'e' | 'F' => 'f'
  | 'G' => 'g' | 'H' => 'h' | 'I' => 'i' | 'J' => 'j' | 'K' => 'k' | 'L' => 'l'
  | 'M' => 'm' | 'N' => 'n' | 'O' => 'o' | 'P' => 'p' | 'Q' => 'q' | 'R' => 'r'
  | 'S' => 's' | 'T' => 't' | 'U' => 'u' | 'V' => 'v' | 'W' => 'w' | 'X' => 'x'
  | 'Y' => 'y' | 'Z' => 'z'
  | c => c

def toLowerStr (s : Str) : Str := s.map jsLowerChar

/-- One character of `.replace(/_/g, ' ')`. -/
def replUndChar (c : Char) : Char := if c = '_' then ' ' else c

/-- The display form of an identifier: `station.replace(/_/g, ' ')`. -/
def displayName (s : Str) : Str := s.map replUndChar

/-- One character of `.replace(/ /g, '_')`. -/
def spaceUndChar (c : Char) : Char := if c = ' ' then '_' else c

/-- Underscore normalization: `stationName.replace(/ /g, '_')`. -/
def underscoreize (s : Str) : Str := s.map spaceUndChar

def isWsChar (c : Char) : Bool := c == ' ' || c == '\t' || c == '\n' || c == '\r'

/-- JS `trim` (over the whitespace the app's data can contain). -/
def jsTrim (s : Str) : Str := ((s.dropWhile isWsChar).reverse.dropWhile isWsChar).reverse

/-- Substring containment, JS semantics of `hay.includes(needle)`. -/
def hasSub (needle : Str) : Str → Bool
  | [] => needle.isEmpty
  | c :: rest => needle.isPrefixOf (c :: rest) || hasSub needle rest

/-- Default JS `Array.prototype.sort` comparison: lexicographic on code units. -/
def strLeb : Str → Str → Bool
  | [], _ => true
  | _ :: _, [] => false
  | a :: as, b :: bs => if a.toNat = b.toNat then strLeb as bs else decide (a.toNat < b.toNat)

def insertSorted (s : Str) : List Str → List Str
  | [] => [s]
  | t :: ts => if strLeb s t then s :: t :: ts else t :: insertSorted s ts

/-- Sorting of `Object.keys(...).sort()`: any lexicographic sort (keys are unique). -/
def sortStrs : List Str → List Str
  | [] => []
  | s :: ss => insertSorted s (sortStrs ss)

/-- The `lineColors` table. -/
def lineColors (name : Str) : Option String :=
  if name = "Azul".toList then some "#0066cc"
  else if name = "Verde".toList then some "#00a550"
  else if name = "Vermelha".toList then some "#e3000b"
  else if name = "Amarela".toList then some "#ffcc00"
  else none

/-- Color lookup with default: `lineColors[line] || '#666'`. -/
def lineColorOf (name : Str) : String := (lineColors name).getD "#666"

/-- A wait-time sample: a JS number, a JS string, or any other JS value. -/
inductive WaitSample where
  | num (t : ℤ)
  | str (s : Str)
  | other
deriving DecidableEq

/-- The value found under a destination key: an array of samples or not an array. -/
inductive DestsVal where
  | arr (ws : List WaitSample)
  | notArr
deriving DecidableEq

/-- The value found under a line key: a string (e.g. the `"NA"` sentinel), an
object mapping destinations to wait-time values, or any other JS value. -/
inductive LineVal where
  | str (s : Str)
  | obj (dests : List (Str × DestsVal))
  | other
deriving DecidableEq

abbrev StationEntry := List (Str × LineVal)

structure Snapshot where
  timestamp : Option ℤ
  current_wait_times : Option (List (Str × StationEntry))
  Occupancy : Option ℚ
deriving DecidableEq

/-- The module-level mutable state of `app.js`. -/
structure AppState where
  metroData : Option Snapshot
  allStations : List Str
  currentStation : Option Str
  occupancyPercentage : ℚ
  lastUpdate : Option ℤ
deriving DecidableEq

/-- The module-level initial values (`metroData = null`, …, `occupancyPercentage = 50`). -/
def initialState : AppState :=
  { metroData := none, allStations := [], currentStation := none,
    occupancyPercentage := 50, lastUpdate := none }

structure Rgb where
  r : ℤ
  g : ℤ
  b : ℤ
deriving DecidableEq

/-- JS `Math.round`: round half toward positive infinity. -/
def jsRound (q : ℚ) : ℤ := ⌊q + 1/2⌋

/-- The function `getOccupancyColor` (app.js:26-45); `0.5` is `1/2`. -/
def getOccupancyColor (percentage : ℚ) : Rgb :=
  let p := min (max percentage 0) 100 / 100
  if p < 1/2 then
    { r := jsRound (0 + 255 * (p / (1/2))), g := 180, b := 0 }
  else
    { r := 255, g := jsRound (180 * (1 - (p - 1/2) / (1/2))), b := 0 }

/-- A rendered wait-time cell: the `--` slot, or a formatted time with its
darkness factor (`(time/maxTime)*0.7`; `0.7` is `7/10`). -/
inductive Cell where
  | na
  | time (formatted : Str) (darkness : ℚ)
deriving DecidableEq

/-- A train icon on the track: position percentage, occupancy color, occupancy. -/
structure Marker where
  pos : ℚ
  color : Rgb
  occ : ℚ
deriving DecidableEq

structure DestRender where
  dest : Str
  validTimes : List ℤ
  maxTime : ℤ
  cells : List Cell
  trainLine : Option (List Marker)
deriving DecidableEq

inductive LineBody where
  | noData
  | dests (ds : List DestRender)
deriving DecidableEq

structure LineRender where
  name : Str
  color : String
  body : LineBody
deriving DecidableEq

structure ListItem where
  name : Str
  closed : Bool
  badges : Option (List (Str × String))
deriving DecidableEq

/-- What the results panel shows after a render pass. -/
inductive View where
  | loadingStations
  | stationList (items : List ListItem)
  | loadingData
  | stationNotFound
  | stationClosed (heading : Str)
  | stationNoData (heading : Str)
  | stationDetail (heading : Str) (lines : List LineRender)
      (totalLines : ℕ) (totalDestinations : ℕ)
deriving DecidableEq

/-- The heading shown on a station card, when the view has one. -/
def View.headingName : View → Option Str
  | stationClosed h => some h
  | stationNoData h => some h
  | stationDetail h _ _ _ => some h
  | _ => none

/-- Whether the view is the station-list view (as opposed to a detail view). -/
def View.isListView : View → Bool
  | loadingStations => true
  | stationList _ => true
  | _ => false

/-- Zero padding: `seconds.toString().padStart(2, '0')`. -/
def padStart2 (s : Str) : Str := List.replicate (2 - s.length) '0' ++ s

/-- Format a wait time as minutes, a colon, and two-digit zero-padded seconds. -/
def formatMMSS (t : ℕ) : Str :=
  (Nat.repr (t / 60)).toList ++ ':' :: padStart2 (Nat.repr (t % 60)).toList

/-- Valid times: `waitTimes.filter(t => typeof t === 'number' && t > 0)`. -/
def validTimesOf (ws : List WaitSample) : List ℤ :=
  ws.filterMap fun w =>
    match w with
    | .num t => if t > 0 then some t else none
    | _ => none

/-- The per-destination part of `displayStation` (app.js:253-294). -/
def renderDestination (occ : ℚ) (destination : Str) (waitTimes : List WaitSample) :
    DestRender :=
  let validTimes := validTimesOf waitTimes
  let maxTime := if validTimes.length > 0 then (validTimes.max?).getD 0 else 0
  let cells := waitTimes.filterMap fun w =>
    match w with
    | .str s => if s = "--".toList ∨ s = "NA".toList then some Cell.na else none
    | .num t =>
        if t > 0 then
          some (Cell.time (formatMMSS t.toNat)
            (if maxTime > 0 then ((t : ℚ) / (maxTime : ℚ)) * (7/10) else 0))
        else none
    | .other => none
  let trainLine :=
    if validTimes.length > 0 then
      some (validTimes.map fun t =>
        { pos := 5 + ((t : ℚ) / (maxTime : ℚ)) * 90,
          color := getOccupancyColor occ,
          occ := occ : Marker })
    else none
  { dest := displayName destination, validTimes := validTimes, maxTime := maxTime,
    cells := cells, trainLine := trainLine }

/-- The per-line part of `displayStation` (app.js:239-305). -/
def renderLine (occ : ℚ) (lineName : Str) (lv : LineVal) : LineRender :=
  let color := lineColorOf lineName
  match lv with
  | .obj dests =>
      let ds := dests.filterMap fun p =>
        match p.2 with
        | .arr ws => if ws.length > 0 then some (renderDestination occ p.1 ws) else none
        | .notArr => none
      { name := lineName, color := color,
        body := if ds.length > 0 then LineBody.dests ds else LineBody.noData }
  | _ => { name := lineName, color := color, body := LineBody.noData }

/-- The `key` computed at app.js:183-185: the name as-is when present, else
with spaces converted to underscores. -/
def resolveKey (cwt : List (Str × StationEntry)) (stationName : Str) : Str :=
  if (cwt.lookup stationName).isSome then stationName else underscoreize stationName

/-- Station lookup `metroData.current_wait_times[key]` after key resolution. -/
def lookupStation (cwt : List (Str × StationEntry)) (stationName : Str) :
    Option StationEntry :=
  cwt.lookup (resolveKey cwt stationName)

/-- The function `displayStation` (app.js:171-311): updated state and view. -/
def displayStation (st : AppState) (stationName : Str) : AppState × View :=
  let st1 := { st with currentStation := some stationName }
  match st.metroData with
  | none => (st1, View.loadingData)
  | some d =>
    match d.current_wait_times with
    | none => (st1, View.loadingData)
    | some cwt =>
      match lookupStation cwt stationName with
      | none => (st1, View.stationNotFound)
      | some stationData =>
        if stationData.lookup ("NA".toList) = some (LineVal.str ("NA".toList)) then
          (st1, View.stationClosed (displayName stationName))
        else if stationData.length = 0 then
          (st1, View.stationNoData (displayName stationName))
        else
          let lineRenders := stationData.filterMap fun p =>
            if p.1 = "NA".toList then none
            else some (renderLine st.occupancyPercentage p.1 p.2)
          let totalDestinations := (lineRenders.map fun lr =>
            match lr.body with
            | .dests ds => ds.length
            | .noData => 0).sum
          (st1, View.stationDetail (displayName stationName) lineRenders
            lineRenders.length totalDestinations)

/-- The function `showStationList` (app.js:134-163). -/
def showStationList (st : AppState) : View :=
  match st.metroData with
  | none => View.loadingStations
  | some d =>
    match d.current_wait_times with
    | none => View.loadingStations
    | some cwt =>
      View.stationList (st.allStations.map fun station =>
        let stationData := cwt.lookup station
        { name := displayName station,
          closed := match stationData with
            | some e => decide (e.lookup ("NA".toList) = some (LineVal.str ("NA".toList)))
            | none => false,
          badges := match stationData.map fun e =>
              (e.map Prod.fst).filter (fun k => decide (k ≠ "NA".toList)) with
            | some ls =>
                if ls.length > 0 then some (ls.map fun l => (l, lineColorOf l)) else none
            | none => none : ListItem })

/-- The state updates of the `onValue` callback body (app.js:53-65). -/
def updateFromSnapshot (st : AppState) (d : Snapshot) : AppState :=
  { st with
    metroData := some d,
    allStations := sortStrs ((d.current_wait_times.getD []).map Prod.fst),
    lastUpdate := match d.timestamp with
      | some t => if t ≠ 0 then some t else st.lastUpdate
      | none => st.lastUpdate,
    occupancyPercentage := match d.Occupancy with
      | some v => v
      | none => st.occupancyPercentage }

/-- The whole `onValue` callback (app.js:51-74): `none` models a null payload
(no state change, no render); otherwise update state then re-render. -/
def onSnapshot (st : AppState) (data : Option Snapshot) : AppState × Option View :=
  match data with
  | none => (st, none)
  | some d =>
    let st1 := updateFromSnapshot st d
    match st1.currentStation with
    | some s =>
      let p := displayStation st1 s
      (p.1, some p.2)
    | none => (st1, some (showStationList st1))

/-- The filter of the search input handler (app.js:89-91). -/
def searchFilter (query : Str) (stations : List Str) : List Str :=
  stations.filter fun station => hasSub query (displayName (toLowerStr station))

/-- The search input handler (app.js:80-91): `none` models the cleared
suggestion panel on an empty normalized query. -/
def onSearchInput (raw : Str) (stations : List Str) : Option (List Str) :=
  let query := jsTrim (toLowerStr raw)
  if query.isEmpty then none else some (searchFilter query stations)

/-- C2: `getOccupancyColor` hits rgb(0,180,0) at 0, rgb(255,180,0) at 50 and
rgb(255,0,0) at 100; every input is clamped to [0,100] before the two-segment
interpolation, so 150 renders like 100 and -20 like 0. -/
theorem spec_c2_occupancy_color :
    getOccupancyColor 0 = ⟨0, 180, 0⟩ ∧
    getOccupancyColor 50 = ⟨255, 180, 0⟩ ∧
    getOccupancyColor 100 = ⟨255, 0, 0⟩ ∧
    (∀ x : ℚ, getOccupancyColor x = getOccupancyColor (min (max x 0) 100)) ∧
    getOccupancyColor 150 = getOccupancyColor 100 ∧
    getOccupancyColor (-20) = getOccupancyColor 0 := by
  have hclamp : ∀ x : ℚ, getOccupancyColor x = getOccupancyColor (min (max x 0) 100) := by
    intro x
    unfold getOccupancyColor
    have h : min (max (min (max x 0) 100) 0) 100 = min (max x 0) 100 := by
      rcases le_total x 0 with h | h <;> rcases le_total x 100 with h' | h' <;>
        simp [max_def, min_def] <;> split_ifs <;> linarith
    rw [h]
  refine ⟨?_, ?_, ?_, hclamp, ?_, ?_⟩
  · unfold getOccupancyColor jsRound
    norm_num
  · unfold getOccupancyColor jsRound
    norm_num
  · unfold getOccupancyColor jsRound
    norm_num
  · rw [hclamp 150]
    norm_num
  · rw [hclamp (-20)]
    norm_num

/-! ### Helper lemmas -/

theorem displayStation_fst (st : AppState) (stationName : Str) :
    (displayStation st stationName).1 = { st with currentStation := some stationName } := by
  unfold displayStation
  dsimp only
  split
  · rfl
  · split
    · rfl
    · split
      · rfl
      · split_ifs <;> rfl

theorem displayStation_not_list (st : AppState) (stationName : Str) :
    (displayStation st stationName).2.isListView = false := by
  unfold displayStation
  dsimp only
  split
  · rfl
  · split
    · rfl
    · split
      · rfl
      · split_ifs <;> rfl

theorem updateFromSnapshot_currentStation (st : AppState) (d : Snapshot) :
    (updateFromSnapshot st d).currentStation = st.currentStation := rfl

theorem updateFromSnapshot_occ (st : AppState) (d : Snapshot) :
    (updateFromSnapshot st d).occupancyPercentage =
      match d.Occupancy with
      | some v => v
      | none => st.occupancyPercentage := rfl

theorem jsLowerChar_ne_und {c : Char} (h : c ≠ '_') : jsLowerChar c ≠ '_' := by
  intro hc
  unfold jsLowerChar at hc
  split at hc
  all_goals first
    | exact h hc
    | exact absurd hc (by decide)

theorem replUnd_lower_comm (c : Char) :
    replUndChar (jsLowerChar c) = jsLowerChar (replUndChar c) := by
  by_cases h : c = '_'
  · subst h; decide
  · have h1 : replUndChar c = c := if_neg h
    have h2 : replUndChar (jsLowerChar c) = jsLowerChar c := if_neg (jsLowerChar_ne_und h)
    rw [h1, h2]

theorem displayName_toLower_comm (s : Str) :
    displayName (toLowerStr s) = toLowerStr (displayName s) := by
  unfold displayName toLowerStr
  rw [List.map_map, List.map_map]
  exact List.map_congr_left fun a _ => replUnd_lower_comm a

theorem spaceUnd_replUnd (c : Char) (h : c ≠ ' ') :
    spaceUndChar (replUndChar c) = if c = '_' then '_' else c := by
  by_cases h2 : c = '_'
  · subst h2; decide
  · simp [replUndChar, spaceUndChar, h, h2]

theorem underscoreize_displayName {k : Str} (h : ' ' ∉ k) :
    underscoreize (displayName k) = k := by
  unfold underscoreize displayName
  rw [List.map_map]
  induction k with
  | nil => rfl
  | cons c cs ih =>
    simp only [List.mem_cons, not_or] at h
    simp only [List.map_cons, Function.comp_apply]
    rw [ih h.2]
    by_cases h2 : c = '_'
    · subst h2; simp [replUndChar, spaceUndChar]
    · have h1 : replUndChar c = c := if_neg h2
      have h3 : spaceUndChar c = c := if_neg fun hc => h.1 hc.symm
      rw [h1, h3]

/-! ### Claim theorems -/

/-- C8: station-identifier normalization round-trips:
`displayName (normalize (displayName x)) = displayName x` for every identifier. -/
theorem spec_c8_roundtrip (x : Str) :
    displayName (underscoreize (displayName x)) = displayName x := by
  unfold displayName underscoreize
  rw [List.map_map, List.map_map]
  refine List.map_congr_left fun c _ => ?_
  by_cases h : c = '_'
  · subst h; decide
  · by_cases h2 : c = ' '
    · subst h2; decide
    · simp [Function.comp, replUndChar, spaceUndChar, h, h2]

/-- C5: the search handler lowercases and trims the query; a nonempty query
keeps exactly the stations whose display form (underscores to spaces,
lowercased) contains it as a substring, preserving list order; and query
`cen` matches `Central_Park`. -/
theorem spec_c5_search_filter :
    (∀ (raw : Str) (stations : List Str),
      onSearchInput raw stations =
        if (jsTrim (toLowerStr raw)).isEmpty then none
        else some (stations.filter fun station =>
          hasSub (jsTrim (toLowerStr raw)) (toLowerStr (displayName station)))) ∧
    (∀ (query : Str) (stations : List Str),
      (searchFilter query stations).Sublist stations) ∧
    onSearchInput ("cen".toList) [("Central_Park".toList)] =
      some [("Central_Park".toList)] := by
  refine ⟨?_, ?_, ?_⟩
  · intro raw stations
    unfold onSearchInput searchFilter
    simp only [displayName_toLower_comm]
  · intro query stations
    exact List.filter_sublist _
  · decide

/-- C7: a delivered snapshot replaces the stored occupancy percentage when the
`Occupancy` field is present and leaves it unchanged when absent; before any
snapshot the value is the built-in default 50. -/
theorem spec_c7_occupancy_retention :
    (∀ (st : AppState) (d : Snapshot),
      (onSnapshot st (some d)).1.occupancyPercentage =
        match d.Occupancy with
        | some v => v
        | none => st.occupancyPercentage) ∧
    initialState.occupancyPercentage = 50 := by
  refine ⟨?_, rfl⟩
  intro st d
  have hocc : (onSnapshot st (some d)).1.occupancyPercentage =
      (updateFromSnapshot st d).occupancyPercentage := by
    unfold onSnapshot
    rcases hcs : (updateFromSnapshot st d).currentStation with _ | s
    · simp [hcs]
    · simp [hcs, displayStation_fst]
  rw [hocc, updateFromSnapshot_occ]

/-- C9: detail rendering records the requested station name into the Selection
State unconditionally (before the loading/not-found checks), and a snapshot
delivered while a station is selected re-renders that station's detail view
(never the station list). -/
theorem spec_c9_selection_first (st : AppState) (stationName : Str) :
    (displayStation st stationName).1.currentStation = some stationName ∧
    (∀ d : Snapshot, st.currentStation = some stationName →
      onSnapshot st (some d) =
        ((displayStation (updateFromSnapshot st d) stationName).1,
         some (displayStation (updateFromSnapshot st d) stationName).2) ∧
      (displayStation (updateFromSnapshot st d) stationName).2.isListView = false) := by
  constructor
  · rw [displayStation_fst]
  · intro d hcs
    refine ⟨?_, displayStation_not_list _ _⟩
    unfold onSnapshot
    have h1 : (updateFromSnapshot st d).currentStation = some stationName := by
      rw [updateFromSnapshot_currentStation, hcs]
    simp [h1]

def c9St : AppState := { initialState with currentStation := some ("X".toList) }

def c9Snap : Snapshot := { timestamp := none, current_wait_times := none, Occupancy := none }

theorem spec_c9_witness :
    (displayStation c9St ("X".toList)).1.currentStation = some ("X".toList) ∧
    onSnapshot c9St (some c9Snap) =
      ((displayStation (updateFromSnapshot c9St c9Snap) ("X".toList)).1,
       some (displayStation (updateFromSnapshot c9St c9Snap) ("X".toList)).2) ∧
    (displayStation (updateFromSnapshot c9St c9Snap) ("X".toList)).2.isListView = false := by
  have h := spec_c9_selection_first c9St ("X".toList)
  exact ⟨h.1, (h.2 c9Snap rfl).1, (h.2 c9Snap rfl).2⟩

/-- C4 (amended): detail rendering stores the originally requested, unresolved
station name in the Selection State — not necessarily the key found after
underscore normalization — and any heading it displays is the original name's
display form. -/
theorem spec_c4_selection_unresolved (st : AppState) (stationName : Str) :
    (displayStation st stationName).1.currentStation = some stationName ∧
    ((displayStation st stationName).2.headingName = none ∨
     (displayStation st stationName).2.headingName = some (displayName stationName)) := by
  refine ⟨by rw [displayStation_fst], ?_⟩
  unfold displayStation
  dsimp only
  split
  · exact Or.inl rfl
  · split
    · exact Or.inl rfl
    · split
      · exact Or.inl rfl
      · split_ifs <;> exact Or.inr rfl

def c4Cwt : List (Str × StationEntry) := [("Central_Park".toList, [])]

def c4Snap : Snapshot :=
  { timestamp := none, current_wait_times := some c4Cwt, Occupancy := none }

def c4St : AppState := { initialState with metroData := some c4Snap }

/-- C4 (counterexample): requesting `Central Park` resolves to the snapshot key
`Central_Park`, yet the Selection State is set to the unresolved name
`Central Park`, not to the resolved key — refuting the claim as stated. -/
theorem spec_c4_counterexample :
    resolveKey c4Cwt ("Central Park".toList) = "Central_Park".toList ∧
    lookupStation c4Cwt ("Central Park".toList) = some [] ∧
    (displayStation c4St ("Central Park".toList)).1.currentStation ≠
      some ("Central_Park".toList) ∧
    (displayStation c4St ("Central Park".toList)).1.currentStation =
      some ("Central Park".toList) := by
  refine ⟨by decide, by decide, ?_, ?_⟩
  · rw [displayStation_fst]
    decide
  · rw [displayStation_fst]

def naSentinel : StationEntry := [("NA".toList, LineVal.str ("NA".toList))]

/-- C3: detail rendering distinguishes three error outcomes — the exact
`NA : NA` sentinel entry renders the closed message, an empty entry renders
the no-data message (distinct from not-found and from closed), and an absent
entry renders the station-not-found message. -/
theorem spec_c3_error_outcomes (st : AppState) (d : Snapshot)
    (cwt : List (Str × StationEntry)) (stationName : Str)
    (hmd : st.metroData = some d) (hcwt : d.current_wait_times = some cwt) :
    (lookupStation cwt stationName = some naSentinel →
      (displayStation st stationName).2 = View.stationClosed (displayName stationName)) ∧
    (lookupStation cwt stationName = some ([] : StationEntry) →
      (displayStation st stationName).2 = View.stationNoData (displayName stationName) ∧
      View.stationNoData (displayName stationName) ≠ View.stationNotFound ∧
      (∀ h : Str, View.stationNoData (displayName stationName) ≠ View.stationClosed h)) ∧
    (lookupStation cwt stationName = none →
      (displayStation st stationName).2 = View.stationNotFound) := by
  refine ⟨?_, ?_, ?_⟩ <;> intro hlk
  · unfold displayStation
    rw [hmd]
    dsimp only
    rw [hcwt]
    dsimp only
    rw [hlk]
    dsimp only
    rw [if_pos (by decide)]
  · refine ⟨?_, by simp, by simp⟩
    unfold displayStation
    rw [hmd]
    dsimp only
    rw [hcwt]
    dsimp only
    rw [hlk]
    dsimp only
    rw [if_neg (by decide),
      if_pos (show (([] : StationEntry)).length = 0 from rfl)]
  · unfold displayStation
    rw [hmd]
    dsimp only
    rw [hcwt]
    dsimp only
    rw [hlk]

def c3Cwt : List (Str × StationEntry) := [("A".toList, naSentinel), ("B".toList, [])]

def c3Snap : Snapshot :=
  { timestamp := none, current_wait_times := some c3Cwt, Occupancy := none }

def c3St : AppState := { initialState with metroData := some c3Snap }

theorem spec_c3_witness :
    (displayStation c3St ("A".toList)).2 = View.stationClosed (displayName ("A".toList)) ∧
    (displayStation c3St ("B".toList)).2 = View.stationNoData (displayName ("B".toList)) ∧
    (displayStation c3St ("C".toList)).2 = View.stationNotFound := by
  have h1 := spec_c3_error_outcomes c3St c3Snap c3Cwt ("A".toList) rfl rfl
  have h2 := spec_c3_error_outcomes c3St c3Snap c3Cwt ("B".toList) rfl rfl
  have h3 := spec_c3_error_outcomes c3St c3Snap c3Cwt ("C".toList) rfl rfl
  exact ⟨h1.1 (by decide), (h2.2.1 (by decide)).1, h3.2.2 (by decide)⟩

/-- C6: station lookup tries the identifier as-is, then retries with spaces
converted to underscores; "not found" is rendered exactly when both lookups
fail; and for a space-free existing key whose space form is not itself a key,
both the underscore form and the space form resolve to the same entry. -/
theorem spec_c6_lookup (cwt : List (Str × StationEntry)) (stationName : Str) :
    lookupStation cwt stationName =
      (cwt.lookup stationName).orElse (fun _ => cwt.lookup (underscoreize stationName)) ∧
    (∀ (st : AppState) (d : Snapshot), st.metroData = some d →
      d.current_wait_times = some cwt →
      ((displayStation st stationName).2 = View.stationNotFound ↔
        cwt.lookup stationName = none ∧ cwt.lookup (underscoreize stationName) = none)) ∧
    (∀ (k : Str) (e : StationEntry), ' ' ∉ k → cwt.lookup k = some e →
      (cwt.lookup (displayName k) = none ∨ displayName k = k) →
      lookupStation cwt k = some e ∧ lookupStation cwt (displayName k) = some e) := by
  have ha : lookupStation cwt stationName =
      (cwt.lookup stationName).orElse (fun _ => cwt.lookup (underscoreize stationName)) := by
    cases h : cwt.lookup stationName <;>
      simp [lookupStation, resolveKey, h, Option.orElse]
  refine ⟨ha, ?_, ?_⟩
  · intro st d hmd hcwt
    have hview : (displayStation st stationName).2 = View.stationNotFound ↔
        lookupStation cwt stationName = none := by
      unfold displayStation
      rw [hmd]
      dsimp only
      rw [hcwt]
      dsimp only
      cases hl : lookupStation cwt stationName
      · simp
      · dsimp only
        split_ifs <;> simp
    rw [hview, ha]
    exact Option.orElse_eq_none' _ _
  · intro k e hsp hk hdisj
    have hresk : resolveKey cwt k = k := by
      unfold resolveKey
      rw [hk]
      rfl
    refine ⟨?_, ?_⟩
    · unfold lookupStation
      rw [hresk, hk]
    · rcases hdisj with hnone | heq
      · have hres2 : resolveKey cwt (displayName k) = k := by
          unfold resolveKey
          rw [hnone]
          simp [underscoreize_displayName hsp]
        unfold lookupStation
        rw [hres2, hk]
      · rw [heq]
        unfold lookupStation
        rw [hresk, hk]

def c6Cwt : List (Str × StationEntry) := [("Central_Park".toList, [])]

def c6Snap : Snapshot :=
  { timestamp := none, current_wait_times := some c6Cwt, Occupancy := none }

def c6St : AppState := { initialState with metroData := some c6Snap }

theorem spec_c6_witness :
    ((displayStation c6St ("Porto".toList)).2 = View.stationNotFound ↔
      c6Cwt.lookup ("Porto".toList) = none ∧
      c6Cwt.lookup (underscoreize ("Porto".toList)) = none) ∧
    lookupStation c6Cwt ("Central_Park".toList) = some [] ∧
    lookupStation c6Cwt (displayName ("Central_Park".toList)) = some [] := by
  have h1 := spec_c6_lookup c6Cwt ("Porto".toList)
  have h2 := spec_c6_lookup c6Cwt ("Central_Park".toList)
  have h3 := (h2.2.2 ("Central_Park".toList) [] (by decide) (by decide) (by decide))
  exact ⟨h1.2.1 c6St c6Snap rfl rfl, h3.1, h3.2⟩

/-- C10: an entry containing the key `NA` with value `NA` renders the closed
message even when other line keys are present: the closed check precedes line
iteration, so no detail view (and no line) is ever rendered for it. -/
theorem spec_c10_closed_precedence (st : AppState) (d : Snapshot)
    (cwt : List (Str × StationEntry)) (stationName : Str) (e : StationEntry)
    (hmd : st.metroData = some d) (hcwt : d.current_wait_times = some cwt)
    (hlk : lookupStation cwt stationName = some e)
    (hna : e.lookup ("NA".toList) = some (LineVal.str ("NA".toList))) :
    (displayStation st stationName).2 = View.stationClosed (displayName stationName) ∧
    ∀ (h : Str) (ls : List LineRender) (a b : ℕ),
      (displayStation st stationName).2 ≠ View.stationDetail h ls a b := by
  have hc : (displayStation st stationName).2 =
      View.stationClosed (displayName stationName) := by
    unfold displayStation
    rw [hmd]
    dsimp only
    rw [hcwt]
    dsimp only
    rw [hlk]
    dsimp only
    rw [if_pos hna]
  refine ⟨hc, ?_⟩
  rw [hc]
  intro h ls a b
  simp

def c10Entry : StationEntry :=
  [("NA".toList, LineVal.str ("NA".toList)),
   ("Azul".toList, LineVal.obj [("X".toList, DestsVal.arr [WaitSample.num 60])])]

def c10Cwt : List (Str × StationEntry) := [("S".toList, c10Entry)]

def c10Snap : Snapshot :=
  { timestamp := none, current_wait_times := some c10Cwt, Occupancy := none }

def c10St : AppState := { initialState with metroData := some c10Snap }

theorem spec_c10_witness :
    (displayStation c10St ("S".toList)).2 = View.stationClosed (displayName ("S".toList)) ∧
    ∀ (h : Str) (ls : List LineRender) (a b : ℕ),
      (displayStation c10St ("S".toList)).2 ≠ View.stationDetail h ls a b :=
  spec_c10_closed_precedence c10St c10Snap c10Cwt ("S".toList) c10Entry rfl rfl
    (by decide) (by decide)

/-- C1: for a destination with wait-time sequence 90, 30, `--`, detail
rendering computes valid times 90 and 30 with maxTime 90; renders, in original
order, the cells `1:30` and `0:30` followed by the unavailable slot; and
renders positional markers only for the two valid entries, at 95 and 35
percent. -/
theorem spec_c1_destination_render (occ : ℚ) (destination : Str) :
    (renderDestination occ destination
        [WaitSample.num 90, WaitSample.num 30, WaitSample.str ("--".toList)]).validTimes
      = [90, 30] ∧
    (renderDestination occ destination
        [WaitSample.num 90, WaitSample.num 30, WaitSample.str ("--".toList)]).maxTime
      = 90 ∧
    (renderDestination occ destination
        [WaitSample.num 90, WaitSample.num 30, WaitSample.str ("--".toList)]).cells
      = [Cell.time ("1:30".toList) (7/10), Cell.time ("0:30".toList) (7/30), Cell.na] ∧
    ((renderDestination occ destination
        [WaitSample.num 90, WaitSample.num 30, WaitSample.str ("--".toList)]).trainLine.map
      fun ms => ms.map Marker.pos) = some [95, 35] := by
  have hv : validTimesOf
      [WaitSample.num 90, WaitSample.num 30, WaitSample.str ("--".toList)] = [90, 30] := by
    decide
  have hmaxEval :
      (if (([90, 30] : List ℤ)).length > 0 then (([90, 30] : List ℤ).max?).getD 0 else 0)
        = (90 : ℤ) := by
    decide
  have hf90 : formatMMSS (Int.toNat 90) = "1:30".toList := by decide
  have hf30 : formatMMSS (Int.toNat 30) = "0:30".toList := by decide
  have hr : renderDestination occ destination
      [WaitSample.num 90, WaitSample.num 30, WaitSample.str ("--".toList)] =
      { dest := displayName destination,
        validTimes := [90, 30],
        maxTime := 90,
        cells := [Cell.time ("1:30".toList) (7/10), Cell.time ("0:30".toList) (7/30), Cell.na],
        trainLine := some [⟨95, getOccupancyColor occ, occ⟩, ⟨35, getOccupancyColor occ, occ⟩] } := by
    unfold renderDestination
    dsimp only
    rw [hv, hmaxEval]
    simp only [List.filterMap_cons, List.filterMap_nil, List.map_cons, List.map_nil, hf90, hf30]
    norm_num
  refine ⟨?_, ?_, ?_, ?_⟩ <;> rw [hr]
  simp
